import Mathlib

/-!
Verification of the NYC-taxi feature-engineering / train / persist pipeline
that recurs across the repository's notebooks.

The embedding models a dataframe as a list of rows; a row is an association
list from column names to values.  Values carry the small universe the
notebooks actually use: numbers (modelled as exact rationals), booleans,
parsed timestamps, and null (pandas NaN / NaT, cudf null, SQL NULL).

Embedded code:
- prep_df, the pandas FeatureBuilder of the scikit-learn random-forest
  notebook (filter fare_amount > 0, derive tip_fraction / high_tip and the
  pickup time features, project to features + target, astype(float),
  fillna(-1)).
- prep_df_cudf, the dask_cudf variant of the same function (float32 cast,
  int32 cast of the target, null-propagating comparison semantics).
- prep_df_tf, the pandas variant used by the xgboost and hyperparameter
  notebooks (target tip_fraction, extra pickup_weekofyear feature, no
  high_tip column).
- the Snowflake query of the xgboost notebook, which derives the same
  features in SQL with DIV0 and no fare_amount filter, followed by the
  notebook's select / astype(float) / fillna(-1) line.
- a heap-based small-step rendering of the prep_df body, to express that the
  input dataframe object is not mutated (each pandas statement is one step).
- the Trainer / ModelPersistence components of the spec (no such wrappers
  exist in the notebooks, which call estimator.fit and cloudpickle.dump
  directly; those parts are modelled from the spec where noted).
-/

/-- A parsed timestamp as produced by pandas read_csv parse_dates or a SQL
TIMESTAMP column.  Hour and minute are bounded by construction, as they are
for any really parsed timestamp. -/
structure Timestamp where
  year : Nat
  month : Nat
  day : Nat
  hour : Fin 24
  minute : Fin 60
deriving DecidableEq, Repr

/-- Sakamoto month offsets for the day-of-week computation. -/
def sakamotoOffset : Nat → Nat
  | 1 => 0 | 2 => 3 | 3 => 2 | 4 => 5 | 5 => 0 | 6 => 3
  | 7 => 5 | 8 => 1 | 9 => 4 | 10 => 6 | 11 => 2 | 12 => 4
  | _ => 0

/-- Day of week with Sunday = 0 (Sakamoto's algorithm). -/
def weekdaySun0 (y m d : Nat) : Nat :=
  let yy := if m < 3 then y - 1 else y
  (yy + yy / 4 - yy / 100 + yy / 400 + sakamotoOffset m + d) % 7

/-- Day of week with Monday = 0: the convention of pandas
Series.dt.weekday, and of Snowflake DAYOFWEEKISO(x) - 1 as used by the
queries (DAYOFWEEKISO is Monday = 1 .. Sunday = 7). -/
def weekdayMon0 (y m d : Nat) : Nat := (weekdaySun0 y m d + 6) % 7

theorem weekdayMon0_lt_7 (y m d : Nat) : weekdayMon0 y m d < 7 :=
  Nat.mod_lt _ (by norm_num)

/-- Leap year test (Gregorian). -/
def isLeap (y : Nat) : Bool := (y % 4 = 0 && y % 100 ≠ 0) || y % 400 = 0

/-- Cumulative days before the given month in a common year. -/
def cumDaysBefore : Nat → Nat
  | 1 => 0 | 2 => 31 | 3 => 59 | 4 => 90 | 5 => 120 | 6 => 151
  | 7 => 181 | 8 => 212 | 9 => 243 | 10 => 273 | 11 => 304 | 12 => 334
  | _ => 0

/-- Ordinal day of the year (1-based). -/
def dayOfYear (y m d : Nat) : Nat :=
  cumDaysBefore m + d + (if 2 < m && isLeap y then 1 else 0)

/-- Auxiliary quantity of the ISO week-count rule. -/
def pIso (y : Nat) : Nat := (y + y / 4 - y / 100 + y / 400) % 7

/-- Number of ISO weeks in a year (52 or 53). -/
def isoWeeksInYear (y : Nat) : Nat :=
  52 + (if pIso y = 4 || pIso (y - 1) = 3 then 1 else 0)

/-- ISO week number of a date: the convention of pandas
Series.dt.isocalendar().week and of Snowflake WEEKOFYEAR under the default
WEEK_OF_YEAR_POLICY = 0. -/
def isoWeekOfYear (y m d : Nat) : Nat :=
  let wd := weekdayMon0 y m d + 1
  let w := (dayOfYear y m d + 10 - wd) / 7
  if w = 0 then isoWeeksInYear (y - 1)
  else if isoWeeksInYear y < w then 1
  else w

/-- A cell value of a dataframe column.  num covers every numeric dtype
(the embedding uses exact rationals in place of floats), boolV the result
of a vectorized comparison, ts a parsed timestamp, and null stands for
pandas NaN / NaT, cudf null and SQL NULL alike. -/
inductive Val where
  | num (q : Rat)
  | boolV (b : Bool)
  | ts (t : Timestamp)
  | null
deriving DecidableEq, Repr

/-- A dataframe row: column name to value. -/
abbrev Row := List (String × Val)

/-- A dataframe: an ordered list of rows. -/
abbrev Frame := List Row

/-- Read a column of a row (first binding wins); a name that is absent
reads as null. -/
def getVal : Row → String → Val
  | [], _ => Val.null
  | (c2, v) :: t, c => if c = c2 then v else getVal t c

/-- Column assignment df[c] = v.  Reads are name-based (first binding
wins), so prepending implements pandas' overwrite-or-add semantics. -/
def setCol (r : Row) (c : String) (v : Val) : Row := (c, v) :: r

/-- Vectorized division tip_amount / fare_amount with NaN propagation.
In prep_df the divisor is only ever read after the fare_amount > 0 filter,
so the rational-division junk value at a zero divisor is unreachable
there (see the C1 theorems). -/
def vDiv : Val → Val → Val
  | Val.num a, Val.num b => Val.num (a / b)
  | _, _ => Val.null

/-- Vectorized comparison series > c under pandas semantics: comparing
NaN (or anything non-numeric) yields False, never null. -/
def vGtQ : Val → Rat → Val
  | Val.num a, c => Val.boolV (decide (c < a))
  | _, _ => Val.boolV false

/-- Vectorized comparison series > c under cudf semantics: a null operand
propagates to a null result. -/
def vGtQcudf : Val → Rat → Val
  | Val.num a, c => Val.boolV (decide (c < a))
  | _, _ => Val.null

/-- Snowflake DIV0(a, b): 0 when the divisor is 0, ordinary division
otherwise, NULL when an operand is NULL. -/
def div0 : Val → Val → Val
  | Val.num a, Val.num b => if b = 0 then Val.num 0 else Val.num (a / b)
  | _, _ => Val.null

/-- Vectorized addition with null propagation. -/
def vAdd : Val → Val → Val
  | Val.num a, Val.num b => Val.num (a + b)
  | _, _ => Val.null

/-- Vectorized multiplication with null propagation. -/
def vMul : Val → Val → Val
  | Val.num a, Val.num b => Val.num (a * b)
  | _, _ => Val.null

/-- Series.dt.weekday (pandas, Monday = 0); NaT gives NaN.  Also models
DAYOFWEEKISO(x) - 1 of the Snowflake queries, which uses the same
Monday = 0 numbering. -/
def vWeekday : Val → Val
  | Val.ts t => Val.num (weekdayMon0 t.year t.month t.day)
  | _ => Val.null

/-- Series.dt.hour; NaT gives NaN.  Also models HOUR(x) in SQL. -/
def vHour : Val → Val
  | Val.ts t => Val.num t.hour.val
  | _ => Val.null

/-- Series.dt.minute; NaT gives NaN.  Also models MINUTE(x) in SQL. -/
def vMinute : Val → Val
  | Val.ts t => Val.num t.minute.val
  | _ => Val.null

/-- Series.dt.isocalendar().week; NaT gives NaN.  Also models
WEEKOFYEAR(x) in SQL. -/
def vWeekOfYear : Val → Val
  | Val.ts t => Val.num (isoWeekOfYear t.year t.month t.day)
  | _ => Val.null

/-- astype(float): numbers unchanged, booleans to 0/1, NaN stays NaN.
The float32 cast of the cudf variant is modelled the same way (the values
this pipeline feeds it are small integers and exact ratios).  A timestamp
never reaches this cast in the embedded code (pandas would raise); it is
left unchanged. -/
def astypeFloat : Val → Val
  | Val.num q => Val.num q
  | Val.boolV b => Val.num (if b then 1 else 0)
  | Val.null => Val.null
  | Val.ts t => Val.ts t

/-- astype(int32) of the cudf variant: truncation toward zero. -/
def astypeInt32 : Val → Val
  | Val.num q => Val.num (q.num / (q.den : Int))
  | Val.boolV b => Val.num (if b then 1 else 0)
  | v => v

/-- fillna(s): null becomes the fill value, everything else unchanged. -/
def fillna (s : Rat) : Val → Val
  | Val.null => Val.num s
  | v => v

/-- Truth value of a mask cell, for boolean-mask row filtering. -/
def asBool : Val → Bool
  | Val.boolV b => b
  | _ => false

/-- Row predicate of the mask df.fare_amount > 0. -/
def farePos (r : Row) : Bool := asBool (vGtQ (getVal r "fare_amount") 0)

/-- df[df.fare_amount > 0]: boolean-mask filtering (returns a new frame). -/
def filterFarePos (df : Frame) : Frame := df.filter farePos

/-- Whole-frame column assignment df[c] = e(df), one row at a time. -/
def assign (c : String) (e : Row → Val) (df : Frame) : Frame :=
  df.map (fun r => setCol r c (e r))

/-- df[cols]: projection of a row to the given columns, in order. -/
def projectRow (cols : List String) (r : Row) : Row :=
  cols.map (fun c => (c, getVal r c))

/-- df[cols] on a whole frame. -/
def selectCols (cols : List String) (df : Frame) : Frame :=
  df.map (projectRow cols)

/-- Apply a cast / fill to every cell of a frame (astype, fillna). -/
def mapVals (f : Val → Val) (df : Frame) : Frame :=
  df.map (fun r => r.map (fun p => (p.1, f p.2)))

/-- df.tip_amount / df.fare_amount. -/
def exprTipFraction (r : Row) : Val :=
  vDiv (getVal r "tip_amount") (getVal r "fare_amount")

/-- df.tip_fraction > 0.2 (pandas comparison semantics). -/
def exprHighTip (r : Row) : Val := vGtQ (getVal r "tip_fraction") (1 / 5)

/-- df.tip_fraction > 0.2 (cudf comparison semantics). -/
def exprHighTipCudf (r : Row) : Val := vGtQcudf (getVal r "tip_fraction") (1 / 5)

/-- df.tpep_pickup_datetime.dt.weekday. -/
def exprWeekday (r : Row) : Val := vWeekday (getVal r "tpep_pickup_datetime")

/-- df.tpep_pickup_datetime.dt.hour. -/
def exprHour (r : Row) : Val := vHour (getVal r "tpep_pickup_datetime")

/-- (df.pickup_weekday * 24) + df.pickup_hour. -/
def exprWeekHour (r : Row) : Val :=
  vAdd (vMul (getVal r "pickup_weekday") (Val.num 24)) (getVal r "pickup_hour")

/-- df.tpep_pickup_datetime.dt.minute. -/
def exprMinute (r : Row) : Val := vMinute (getVal r "tpep_pickup_datetime")

/-- df.tpep_pickup_datetime.dt.isocalendar().week. -/
def exprWeekOfYear (r : Row) : Val := vWeekOfYear (getVal r "tpep_pickup_datetime")

/-- Feature list of the random-forest notebooks (numeric_feat ++
categorical_feat). -/
def features : List String :=
  ["pickup_weekday", "pickup_hour", "pickup_week_hour", "pickup_minute",
   "passenger_count", "PULocationID", "DOLocationID"]

/-- Target column of the random-forest notebooks. -/
def y_col : String := "high_tip"

/-- prep_df of the scikit-learn random-forest notebook (pandas): filter
fare_amount > 0, assign tip_fraction, high_tip and the pickup time
features, then project to feats ++ [ycol], astype(float), fillna(-1).
The feature list and target name are parameters, mirroring the module
globals the function reads. -/
def prep_df (feats : List String) (ycol : String) (df : Frame) : Frame :=
  let df1 := filterFarePos df
  let df2 := assign "tip_fraction" exprTipFraction df1
  let df3 := assign "high_tip" exprHighTip df2
  let df4 := assign "pickup_weekday" exprWeekday df3
  let df5 := assign "pickup_hour" exprHour df4
  let df6 := assign "pickup_week_hour" exprWeekHour df5
  let df7 := assign "pickup_minute" exprMinute df6
  mapVals (fillna (-1)) (mapVals astypeFloat (selectCols (feats ++ [ycol]) df7))

/-- prep_df of the dask_cudf random-forest notebook: same statements as
the pandas version but with cudf null-propagating comparison for high_tip,
a float32 cast, and a final int32 cast of the target column. -/
def prep_df_cudf (feats : List String) (ycol : String) (df : Frame) : Frame :=
  let df1 := filterFarePos df
  let df2 := assign "tip_fraction" exprTipFraction df1
  let df3 := assign "high_tip" exprHighTipCudf df2
  let df4 := assign "pickup_weekday" exprWeekday df3
  let df5 := assign "pickup_hour" exprHour df4
  let df6 := assign "pickup_week_hour" exprWeekHour df5
  let df7 := assign "pickup_minute" exprMinute df6
  let df8 := mapVals (fillna (-1)) (mapVals astypeFloat (selectCols (feats ++ [ycol]) df7))
  assign ycol (fun r => astypeInt32 (getVal r ycol)) df8

/-- Feature list of the xgboost / hyperparameter notebooks (these include
pickup_weekofyear). -/
def features_tf : List String :=
  ["pickup_weekday", "pickup_weekofyear", "pickup_hour", "pickup_week_hour",
   "pickup_minute", "passenger_count", "PULocationID", "DOLocationID"]

/-- Target column of the xgboost / hyperparameter notebooks. -/
def y_col_tf : String := "tip_fraction"

/-- prep_df of the xgboost / hyperparameter notebooks (pandas, target
tip_fraction): no high_tip column, extra pickup_weekofyear feature. -/
def prep_df_tf (feats : List String) (ycol : String) (df : Frame) : Frame :=
  let df1 := filterFarePos df
  let df2 := assign "tip_fraction" exprTipFraction df1
  let df3 := assign "pickup_weekday" exprWeekday df2
  let df4 := assign "pickup_weekofyear" exprWeekOfYear df3
  let df5 := assign "pickup_hour" exprHour df4
  let df6 := assign "pickup_week_hour" exprWeekHour df5
  let df7 := assign "pickup_minute" exprMinute df6
  mapVals (fillna (-1)) (mapVals astypeFloat (selectCols (feats ++ [ycol]) df7))

/-- Feature list of the Snowflake xgboost notebook. -/
def features_sf : List String :=
  ["pickup_weekday", "pickup_weekofyear", "pickup_hour", "pickup_week_hour",
   "pickup_minute", "passenger_count", "pickup_taxizone_id", "dropoff_taxizone_id"]

/-- Target column of the Snowflake xgboost notebook. -/
def y_col_sf : String := "tip_fraction"

/-- One output row of the Snowflake query of the xgboost notebook: derives
tip_fraction with DIV0 and the pickup time features in SQL.  There is no
fare_amount filter in this query.  (The WHERE month restriction and the
SAMPLE clause concern which rows are loaded, not how each row is
transformed; the embedding covers the per-row transformation.) -/
def snowflakeQueryRow (r : Row) : Row :=
  let wd := vWeekday (getVal r "pickup_datetime")
  let h := vHour (getVal r "pickup_datetime")
  [("pickup_taxizone_id", getVal r "pickup_taxizone_id"),
   ("dropoff_taxizone_id", getVal r "dropoff_taxizone_id"),
   ("passenger_count", getVal r "passenger_count"),
   ("tip_fraction", div0 (getVal r "tip_amount") (getVal r "fare_amount")),
   ("pickup_weekday", wd),
   ("pickup_weekofyear", vWeekOfYear (getVal r "pickup_datetime")),
   ("pickup_hour", h),
   ("pickup_week_hour", vAdd (vMul wd (Val.num 24)) h),
   ("pickup_minute", vMinute (getVal r "pickup_datetime"))]

/-- The Snowflake query applied to a batch of raw warehouse rows. -/
def snowflakeQuery (df : Frame) : Frame := df.map snowflakeQueryRow

/-- taxi_train of the Snowflake xgboost notebook:
taxi[features + [y_col]].astype(float).fillna(-1) applied to the query
result.  No row of the raw batch is dropped anywhere on this path. -/
def taxi_train_sf (df : Frame) : Frame :=
  mapVals (fillna (-1)) (mapVals astypeFloat
    (selectCols (features_sf ++ [y_col_sf]) (snowflakeQuery df)))

/-- One row's share of a whole-frame column assignment. -/
def assignRow (c : String) (e : Row → Val) (r : Row) : Row := setCol r c (e r)

/-- One row's share of the projection / cast / fill tail of prep_df. -/
def finishRow (cols : List String) (r : Row) : Row :=
  ((projectRow cols r).map (fun p => (p.1, astypeFloat p.2))).map
    (fun p => (p.1, fillna (-1) p.2))

/-- The per-row transformation a surviving row undergoes in prep_df after
the fare filter: the six assignments in program order, then projection,
cast and fill. -/
def prepRow (feats : List String) (ycol : String) (r : Row) : Row :=
  finishRow (feats ++ [ycol])
    (assignRow "pickup_minute" exprMinute
      (assignRow "pickup_week_hour" exprWeekHour
        (assignRow "pickup_hour" exprHour
          (assignRow "pickup_weekday" exprWeekday
            (assignRow "high_tip" exprHighTip
              (assignRow "tip_fraction" exprTipFraction r))))))

/-- The structural content of prep_df: it is exactly the per-row
transformation mapped over the fare-filtered batch; every later step is a
row-wise map, so no step after the filter adds or removes rows. -/
theorem prep_df_eq_map (feats : List String) (ycol : String) (df : Frame) :
    prep_df feats ycol df = (filterFarePos df).map (prepRow feats ycol) := by
  simp only [prep_df, assign, mapVals, selectCols, List.map_map]
  refine List.map_congr_left (fun r _ => ?_)
  simp [Function.comp, prepRow, finishRow, assignRow, List.map_map]

/-- The per-row transformation of prep_df_cudf after the fare filter. -/
def prepRowCudf (feats : List String) (ycol : String) (r : Row) : Row :=
  let base := finishRow (feats ++ [ycol])
    (assignRow "pickup_minute" exprMinute
      (assignRow "pickup_week_hour" exprWeekHour
        (assignRow "pickup_hour" exprHour
          (assignRow "pickup_weekday" exprWeekday
            (assignRow "high_tip" exprHighTipCudf
              (assignRow "tip_fraction" exprTipFraction r))))))
  assignRow ycol (fun r2 => astypeInt32 (getVal r2 ycol)) base

/-- prep_df_cudf is the cudf per-row transformation mapped over the
fare-filtered batch. -/
theorem prep_df_cudf_eq_map (feats : List String) (ycol : String) (df : Frame) :
    prep_df_cudf feats ycol df = (filterFarePos df).map (prepRowCudf feats ycol) := by
  simp only [prep_df_cudf, assign, mapVals, selectCols, List.map_map]
  refine List.map_congr_left (fun r _ => ?_)
  simp [Function.comp, prepRowCudf, finishRow, assignRow, List.map_map]

/-- The per-row transformation of prep_df_tf after the fare filter. -/
def prepRowTf (feats : List String) (ycol : String) (r : Row) : Row :=
  finishRow (feats ++ [ycol])
    (assignRow "pickup_minute" exprMinute
      (assignRow "pickup_week_hour" exprWeekHour
        (assignRow "pickup_hour" exprHour
          (assignRow "pickup_weekofyear" exprWeekOfYear
            (assignRow "pickup_weekday" exprWeekday
              (assignRow "tip_fraction" exprTipFraction r))))))

/-- prep_df_tf is its per-row transformation mapped over the
fare-filtered batch. -/
theorem prep_df_tf_eq_map (feats : List String) (ycol : String) (df : Frame) :
    prep_df_tf feats ycol df = (filterFarePos df).map (prepRowTf feats ycol) := by
  simp only [prep_df_tf, assign, mapVals, selectCols, List.map_map]
  refine List.map_congr_left (fun r _ => ?_)
  simp [Function.comp, prepRowTf, finishRow, assignRow, List.map_map]

/-- Reading a column after a single-column assignment. -/
theorem getVal_setCol (r : Row) (c c2 : String) (v : Val) :
    getVal (setCol r c v) c2 = if c2 = c then v else getVal r c2 := by
  simp [setCol, getVal]

/-- Reading a column after an assignment, as assignRow. -/
theorem getVal_assignRow (r : Row) (c c2 : String) (e : Row → Val) :
    getVal (assignRow c e r) c2 = if c2 = c then e r else getVal r c2 := by
  simp [assignRow, getVal_setCol]

/-- A finished row unfolds one projected column at a time. -/
theorem finishRow_cons (c0 : String) (cols : List String) (r : Row) :
    finishRow (c0 :: cols) r =
      (c0, fillna (-1) (astypeFloat (getVal r c0))) :: finishRow cols r := by
  simp [finishRow, projectRow]

/-- Reading a column of a finished (projected, cast, filled) row. -/
theorem getVal_finishRow (cols : List String) (r : Row) (c : String) :
    getVal (finishRow cols r) c =
      if c ∈ cols then fillna (-1) (astypeFloat (getVal r c)) else Val.null := by
  induction cols with
  | nil => simp [finishRow, projectRow, getVal]
  | cons c0 t ih =>
    rw [finishRow_cons]
    by_cases h : c = c0
    · subst h; simp [getVal]
    · simp [getVal, h, ih]

/-- The column names of a finished row are exactly the projection list. -/
theorem keys_finishRow (cols : List String) (r : Row) :
    (finishRow cols r).map Prod.fst = cols := by
  induction cols with
  | nil => simp [finishRow, projectRow]
  | cons c0 t ih => rw [finishRow_cons]; simp [ih]

/-- A heap of dataframe objects, keyed by object identity.  Used to render
the prep_df body statement by statement: pandas boolean-mask indexing
returns a new object, while df[c] = v mutates the object in place. -/
abbrev Heap := List (Nat × Frame)

/-- Read an object of the heap (first binding wins). -/
def hLookup : Heap → Nat → Option Frame
  | [], _ => none
  | (r2, df) :: t, r => if r = r2 then some df else hLookup t r

/-- Greatest key of the heap plus one: a key no live object uses. -/
def hFresh (h : Heap) : Nat := h.foldr (fun p acc => max p.1 acc) 0 + 1

/-- Bind (or overwrite) an object. -/
def hSet (h : Heap) (r : Nat) (df : Frame) : Heap := (r, df) :: h

/-- In-place mutation of the object at r. -/
def hMutate (h : Heap) (r : Nat) (f : Frame → Frame) : Heap :=
  hSet h r (f ((hLookup h r).getD []))

theorem hLookup_hSet_self (h : Heap) (r : Nat) (df : Frame) :
    hLookup (hSet h r df) r = some df := by
  simp [hSet, hLookup]

theorem hLookup_hSet_ne (h : Heap) (k r : Nat) (df : Frame) (hne : r ≠ k) :
    hLookup (hSet h k df) r = hLookup h r := by
  simp [hSet, hLookup, hne]

/-- Every key bound in the heap is below hFresh. -/
theorem hLookup_lt_hFresh (h : Heap) (r : Nat) (df : Frame)
    (hl : hLookup h r = some df) : r < hFresh h := by
  induction h with
  | nil => simp [hLookup] at hl
  | cons p t ih =>
    obtain ⟨r2, df2⟩ := p
    simp only [hLookup] at hl
    by_cases hr : r = r2
    · subst hr
      simp only [hFresh, List.foldr]
      omega
    · simp only [hr, if_false] at hl
      have := ih hl
      simp only [hFresh, List.foldr] at this ⊢
      omega

/-- The prep_df body of the pandas notebook, one heap step per Python
statement.  The input dataframe object lives at inp.  The first statement
df = df[df.fare_amount > 0] binds the local name df to a new object (a
boolean-mask copy); the five column assignments mutate that copy in
place; the final projection line binds df to another new object, which is
returned. -/
def prep_df_prog (h : Heap) (inp : Nat) : Heap × Option Nat :=
  match hLookup h inp with
  | none => (h, none)
  | some df0 =>
    let r1 := hFresh h
    let r2 := hFresh h + 1
    let h1 := hSet h r1 (filterFarePos df0)
    let h2 := hMutate h1 r1 (assign "tip_fraction" exprTipFraction)
    let h3 := hMutate h2 r1 (assign "high_tip" exprHighTip)
    let h4 := hMutate h3 r1 (assign "pickup_weekday" exprWeekday)
    let h5 := hMutate h4 r1 (assign "pickup_hour" exprHour)
    let h6 := hMutate h5 r1 (assign "pickup_week_hour" exprWeekHour)
    let h7 := hMutate h6 r1 (assign "pickup_minute" exprMinute)
    let h8 := hSet h7 r2
      (mapVals (fillna (-1)) (mapVals astypeFloat
        (selectCols (features ++ [y_col]) ((hLookup h7 r1).getD []))))
    (h8, some r2)

/-- Error taxonomy of the spec's Trainer. -/
inductive TrainError where
  | emptyTrainingSet
  | trainingFailure (cause : String)
deriving DecidableEq, Repr

/-- A fitted model artifact: opaque fitted estimator state, the feature
columns captured at fit time, and the target column name. -/
structure ModelArtifact where
  featureCols : List String
  yCol : String
  params : List Rat
deriving DecidableEq, Repr

/-- Modelled from the spec: Trainer.fit (spec section 4.2).  The notebooks
have no Trainer wrapper — they call rfc.fit / xgb_reg.fit directly, and
neither EmptyTrainingSetError nor TrainingFailure occurs in src/.  Per the
spec, a zero-row batch fails with EmptyTrainingSetError before the
estimator is consulted, and an estimator-internal error is wrapped as
TrainingFailure with the cause attached. -/
def Trainer.fit (feats : List String) (ycol : String) (batch : Frame)
    (estFit : Frame → List Val → Except String (List Rat)) :
    Except TrainError ModelArtifact :=
  if batch.length = 0 then Except.error TrainError.emptyTrainingSet
  else
    match estFit (selectCols feats batch) (batch.map (fun r => getVal r ycol)) with
    | Except.error e => Except.error (TrainError.trainingFailure e)
    | Except.ok ps => Except.ok ⟨feats, ycol, ps⟩

/-- A token of a serialized artifact envelope (estimator state bytes plus
schema), standing for the cloudpickle byte stream. -/
inductive Tok where
  | tnat (n : Nat)
  | tstr (s : String)
  | trat (q : Rat)
deriving DecidableEq, Repr

/-- Serialize an artifact: length-prefixed feature columns, the target
name, then the estimator parameters. -/
def encodeArtifact (a : ModelArtifact) : List Tok :=
  Tok.tnat a.featureCols.length ::
    (a.featureCols.map Tok.tstr ++ (Tok.tstr a.yCol :: a.params.map Tok.trat))

/-- Read n string tokens. -/
def readStrs : Nat → List Tok → Option (List String × List Tok)
  | 0, toks => some ([], toks)
  | n + 1, Tok.tstr s :: toks =>
    match readStrs n toks with
    | some (l, rest) => some (s :: l, rest)
    | none => none
  | _ + 1, _ => none

/-- Read rational tokens to exhaustion. -/
def readRats : List Tok → Option (List Rat)
  | [] => some []
  | Tok.trat q :: toks =>
    match readRats toks with
    | some l => some (q :: l)
    | none => none
  | _ => none

/-- Deserialize an artifact envelope; none when the tokens do not decode
to a valid envelope. -/
def decodeArtifact : List Tok → Option ModelArtifact
  | Tok.tnat n :: toks =>
    match readStrs n toks with
    | some (cols, Tok.tstr y :: toks2) =>
      match readRats toks2 with
      | some ps => some ⟨cols, y, ps⟩
      | none => none
    | _ => none
  | _ => none

theorem readStrs_encode (l : List String) (toks : List Tok) :
    readStrs l.length (l.map Tok.tstr ++ toks) = some (l, toks) := by
  induction l with
  | nil => simp [readStrs]
  | cons s t ih => simp [readStrs, ih]

theorem readRats_encode (l : List Rat) :
    readRats (l.map Tok.trat) = some l := by
  induction l with
  | nil => simp [readRats]
  | cons q t ih => simp [readRats, ih]

/-- Deserialization inverts serialization. -/
theorem decode_encode (a : ModelArtifact) :
    decodeArtifact (encodeArtifact a) = some a := by
  simp [encodeArtifact, decodeArtifact, readStrs_encode, readRats_encode]

/-- Persistence error taxonomy of the spec. -/
inductive PersistError where
  | artifactNotFound
  | deserialization
deriving DecidableEq, Repr

/-- Durable storage: a path-addressed map of serialized envelopes. -/
def Store := String → Option (List Tok)

/-- Modelled from the spec: ModelPersistence.save writes the serialized
envelope at the location.  The notebooks open a path and cloudpickle.dump
the estimator; serialization itself is the external cloudpickle library,
modelled by the invertible token encoding above. -/
def ModelPersistence.save (st : Store) (loc : String) (a : ModelArtifact) : Store :=
  fun l => if l = loc then some (encodeArtifact a) else st l

/-- Modelled from the spec: ModelPersistence.load (no notebook ever loads
the pickled model back; the spec defines the operation and its errors). -/
def ModelPersistence.load (st : Store) (loc : String) :
    Except PersistError ModelArtifact :=
  match st loc with
  | none => Except.error PersistError.artifactNotFound
  | some bs =>
    match decodeArtifact bs with
    | some a => Except.ok a
    | none => Except.error PersistError.deserialization

/-- Numeric reading of a feature cell for prediction. -/
def valToRat : Val → Rat
  | Val.num q => q
  | Val.boolV b => if b then 1 else 0
  | _ => 0

/-- Modelled from the spec: the fitted estimator's prediction on one row,
a linear score over the captured feature columns and parameters (the
concrete estimators are external libraries; the round-trip claim needs
only that predictions are a function of the artifact state). -/
def ModelArtifact.predictRow (a : ModelArtifact) (r : Row) : Rat :=
  (a.featureCols.zip a.params).foldl
    (fun acc p => acc + valToRat (getVal r p.1) * p.2) 0

/-- Predictions on a fixed input batch. -/
def ModelArtifact.predict (a : ModelArtifact) (df : Frame) : List Rat :=
  df.map a.predictRow

/-- Primitive storage-layer operations. -/
inductive FsOp where
  | truncate (loc : String)
  | append (loc : String) (data : List Tok)
  | rename (src dst : String)

/-- Effect of one storage operation. -/
def applyOp (st : Store) : FsOp → Store
  | FsOp.truncate loc => fun l => if l = loc then some [] else st l
  | FsOp.append loc d => fun l => if l = loc then some ((st loc).getD [] ++ d) else st l
  | FsOp.rename src dst =>
    fun l => if l = dst then st src else if l = src then none else st l

/-- Run a sequence of storage operations. -/
def runOps (ops : List FsOp) (st : Store) : Store := ops.foldl applyOp st

/-- The storage operations the notebooks' model saving performs:
open(path, 'wb') truncates the destination in place, then
cloudpickle.dump writes the serialized stream into it.  No temporary file
and no rename occurs. -/
def saveOps (loc : String) (a : ModelArtifact) : List FsOp :=
  [FsOp.truncate loc, FsOp.append loc (encodeArtifact a)]

/-- Atomicity from the caller's perspective: whatever prefix of the
operations has executed when the writer is interrupted, the location holds
either its old content or the fully written artifact. -/
def AtomicAt (ops : List FsOp) (loc : String) (full : List Tok) : Prop :=
  ∀ (st : Store) (k : Nat),
    runOps (ops.take k) st loc = st loc ∨ runOps (ops.take k) st loc = some full

/-- The derivation stage of prep_df on one surviving row: the six column
assignments in program order, before projection / cast / fill. -/
def deriveRow (r : Row) : Row :=
  assignRow "pickup_minute" exprMinute
    (assignRow "pickup_week_hour" exprWeekHour
      (assignRow "pickup_hour" exprHour
        (assignRow "pickup_weekday" exprWeekday
          (assignRow "high_tip" exprHighTip
            (assignRow "tip_fraction" exprTipFraction r)))))

theorem prepRow_eq_finish_derive (feats : List String) (ycol : String) (r : Row) :
    prepRow feats ycol r = finishRow (feats ++ [ycol]) (deriveRow r) := rfl

/-- The derivation stage of prep_df_cudf on one surviving row. -/
def deriveRowCudf (r : Row) : Row :=
  assignRow "pickup_minute" exprMinute
    (assignRow "pickup_week_hour" exprWeekHour
      (assignRow "pickup_hour" exprHour
        (assignRow "pickup_weekday" exprWeekday
          (assignRow "high_tip" exprHighTipCudf
            (assignRow "tip_fraction" exprTipFraction r)))))

theorem prepRowCudf_eq (feats : List String) (ycol : String) (r : Row) :
    prepRowCudf feats ycol r =
      assignRow ycol (fun r2 => astypeInt32 (getVal r2 ycol))
        (finishRow (feats ++ [ycol]) (deriveRowCudf r)) := rfl

/-- The derivation stage of prep_df_tf on one surviving row. -/
def deriveRowTf (r : Row) : Row :=
  assignRow "pickup_minute" exprMinute
    (assignRow "pickup_week_hour" exprWeekHour
      (assignRow "pickup_hour" exprHour
        (assignRow "pickup_weekofyear" exprWeekOfYear
          (assignRow "pickup_weekday" exprWeekday
            (assignRow "tip_fraction" exprTipFraction r)))))

theorem prepRowTf_eq (feats : List String) (ycol : String) (r : Row) :
    prepRowTf feats ycol r = finishRow (feats ++ [ycol]) (deriveRowTf r) := rfl

theorem vDiv_null_left (v : Val) : vDiv Val.null v = Val.null := by
  cases v <;> rfl

theorem vGtQ_null (c : Rat) : vGtQ Val.null c = Val.boolV false := rfl

theorem vGtQcudf_null (c : Rat) : vGtQcudf Val.null c = Val.null := rfl

/-- A cell is not a timestamp (every derived feature cell satisfies
this, so astype(float) and fillna combine to a number). -/
def notTs : Val → Bool
  | Val.ts _ => false
  | _ => true

theorem fillna_astypeFloat_num (v : Val) (h : notTs v = true) :
    ∃ q : Rat, fillna (-1) (astypeFloat v) = Val.num q := by
  cases v with
  | num q => exact ⟨q, rfl⟩
  | boolV b => exact ⟨if b then 1 else 0, rfl⟩
  | null => exact ⟨-1, rfl⟩
  | ts t => simp [notTs] at h

/-- The part of the raw-batch column contract the feature coercion needs:
the columns passed through unchanged into the feature table
(passenger_count and the zone ids) hold numbers, booleans or missing
values, never timestamps (pandas astype(float) would raise on a datetime
column).  Every derived column is covered without any assumption. -/
def wfRaw (r : Row) : Bool :=
  notTs (getVal r "passenger_count") && notTs (getVal r "PULocationID")
    && notTs (getVal r "DOLocationID")

/-- 2019-01-01 08:15 (a Tuesday). -/
def tsTue : Timestamp := ⟨2019, 1, 1, ⟨8, by decide⟩, ⟨15, by decide⟩⟩

/-- 2019-01-03 12:00 (a Thursday). -/
def tsThu : Timestamp := ⟨2019, 1, 3, ⟨12, by decide⟩, ⟨0, by decide⟩⟩

/-- 2019-01-07 23:59 (a Monday). -/
def tsMon : Timestamp := ⟨2019, 1, 7, ⟨23, by decide⟩, ⟨59, by decide⟩⟩

/-- 2019-01-15 10:30 (a Tuesday). -/
def tsSf : Timestamp := ⟨2019, 1, 15, ⟨10, by decide⟩, ⟨30, by decide⟩⟩

/-- Scenario row 1: fare 10, tip 2, pickup 2019-01-01T08:15, zones (1, 2),
1 passenger. -/
def rawRow1 : Row :=
  [("tpep_pickup_datetime", Val.ts tsTue), ("PULocationID", Val.num 1),
   ("DOLocationID", Val.num 2), ("passenger_count", Val.num 1),
   ("fare_amount", Val.num 10), ("tip_amount", Val.num 2)]

/-- Scenario row 2: fare 0, tip 0 (the row the filter must drop). -/
def rawRow2 : Row :=
  [("tpep_pickup_datetime", Val.ts tsThu), ("PULocationID", Val.num 1),
   ("DOLocationID", Val.num 1), ("passenger_count", Val.num 1),
   ("fare_amount", Val.num 0), ("tip_amount", Val.num 0)]

/-- Scenario row 3: fare 20, tip 5, pickup 2019-01-07T23:59, zones (3, 4),
2 passengers. -/
def rawRow3 : Row :=
  [("tpep_pickup_datetime", Val.ts tsMon), ("PULocationID", Val.num 3),
   ("DOLocationID", Val.num 4), ("passenger_count", Val.num 2),
   ("fare_amount", Val.num 20), ("tip_amount", Val.num 5)]

/-- The 3-row scenario batch of the spec. -/
def batch3 : Frame := [rawRow1, rawRow2, rawRow3]

/-- A surviving row whose tip_amount is missing. -/
def rawNoTip : Row :=
  [("tpep_pickup_datetime", Val.ts tsTue), ("PULocationID", Val.num 1),
   ("DOLocationID", Val.num 2), ("passenger_count", Val.num 1),
   ("fare_amount", Val.num 10), ("tip_amount", Val.null)]

/-- A surviving row whose pickup timestamp is missing (NaT after
parsing). -/
def rawNoTs : Row :=
  [("tpep_pickup_datetime", Val.null), ("PULocationID", Val.num 1),
   ("DOLocationID", Val.num 2), ("passenger_count", Val.num 1),
   ("fare_amount", Val.num 5), ("tip_amount", Val.num 1)]

/-- A raw warehouse row with fare_amount = 0 (tip 5). -/
def sfRowZeroFare : Row :=
  [("pickup_datetime", Val.ts tsSf), ("pickup_taxizone_id", Val.num 41),
   ("dropoff_taxizone_id", Val.num 42), ("passenger_count", Val.num 1),
   ("fare_amount", Val.num 0), ("tip_amount", Val.num 5)]

/-- A raw warehouse row with fare_amount = -10 (tip 5). -/
def sfRowNegFare : Row :=
  [("pickup_datetime", Val.ts tsSf), ("pickup_taxizone_id", Val.num 41),
   ("dropoff_taxizone_id", Val.num 42), ("passenger_count", Val.num 1),
   ("fare_amount", Val.num (-10)), ("tip_amount", Val.num 5)]

/-- C1 (amended): in the prep_df FeatureBuilder of the pandas / cudf
notebooks, the fare screen is sound: the output is exactly the per-row
transformation of the rows passing the fare_amount > 0 mask, that mask
holds exactly on rows whose fare_amount is a number strictly greater than
zero (so every row with fare_amount ≤ 0, or with a missing fare_amount,
is absent from the output and contributes no target value), and on every
row reaching the ratio derivation the denominator is that positive
number.  (The claim as frozen is false of the Snowflake-query path of the
xgboost notebook — see the counterexample theorem.) -/
theorem c1_prep_df_fare_screen (feats : List String) (ycol : String) (df : Frame) :
    prep_df feats ycol df = (filterFarePos df).map (prepRow feats ycol)
    ∧ (∀ r : Row, farePos r = true ↔
        ∃ q : Rat, getVal r "fare_amount" = Val.num q ∧ 0 < q)
    ∧ (∀ r : Row, farePos r = true →
        ∃ q : Rat, 0 < q ∧ getVal r "fare_amount" = Val.num q
          ∧ exprTipFraction r = vDiv (getVal r "tip_amount") (Val.num q)) := by
  have hiff : ∀ r : Row, farePos r = true ↔
      ∃ q : Rat, getVal r "fare_amount" = Val.num q ∧ 0 < q := by
    intro r
    cases hv : getVal r "fare_amount" <;> simp [farePos, vGtQ, asBool, hv]
  refine ⟨prep_df_eq_map feats ycol df, hiff, ?_⟩
  intro r hr
  obtain ⟨q, hq, hpos⟩ := (hiff r).mp hr
  exact ⟨q, hpos, hq, by rw [exprTipFraction, hq]⟩

/-- Witness for C1 at the scenario batch: the fare mask holds on row 1
(fare 10) and the theorem applies. -/
theorem c1_prep_df_fare_screen_witness :
    farePos rawRow1 = true
    ∧ (prep_df features y_col batch3 = (filterFarePos batch3).map (prepRow features y_col)
       ∧ (∀ r : Row, farePos r = true ↔
           ∃ q : Rat, getVal r "fare_amount" = Val.num q ∧ 0 < q)
       ∧ (∀ r : Row, farePos r = true →
           ∃ q : Rat, 0 < q ∧ getVal r "fare_amount" = Val.num q
             ∧ exprTipFraction r = vDiv (getVal r "tip_amount") (Val.num q))) :=
  ⟨by decide, c1_prep_df_fare_screen features y_col batch3⟩

/-- C1 counterexample: on the Snowflake-query path of the xgboost
notebook nothing screens fare_amount: a raw row with fare_amount = 0 is
kept (DIV0 silently makes its tip_fraction 0), and a raw row with
fare_amount = -10 is kept with the ratio really divided by the negative
fare.  The frozen claim says every row with fare_amount ≤ 0 is absent
from the feature output. -/
theorem c1_snowflake_counterexample :
    getVal sfRowZeroFare "fare_amount" = Val.num 0
    ∧ (taxi_train_sf [sfRowZeroFare]).length = 1
    ∧ (taxi_train_sf [sfRowZeroFare]).map (fun r => getVal r "tip_fraction")
        = [Val.num 0]
    ∧ getVal sfRowNegFare "fare_amount" = Val.num (-10)
    ∧ (taxi_train_sf [sfRowNegFare]).map (fun r => getVal r "tip_fraction")
        = [Val.num (-(1 / 2))] := by
  refine ⟨by decide, by decide, by decide, by decide, ?_⟩
  simp +decide only [taxi_train_sf, snowflakeQuery, snowflakeQueryRow, sfRowNegFare,
    selectCols, projectRow, mapVals, getVal, div0, vWeekday, vHour, vMinute,
    vWeekOfYear, vAdd, vMul, astypeFloat, fillna, features_sf, y_col_sf, List.map]
  norm_num

/-- C2 (amended): for every surviving row whose pickup timestamp is
present, the output satisfies pickup_week_hour = pickup_weekday * 24 +
pickup_hour with 0 ≤ pickup_week_hour ≤ 167; but a surviving row whose
pickup timestamp is missing is sentinel-filled, and its output has
pickup_weekday = pickup_hour = pickup_week_hour = -1, for which the
identity (-1 = -1 * 24 + -1) and the lower bound both fail.  The frozen
claim asserted the identity and the bounds for sentinel-filled rows
too. -/
theorem c2_week_hour_identity (ycol : String) (df : Frame) (r : Row)
    (hr : r ∈ filterFarePos df) :
    prepRow features ycol r ∈ prep_df features ycol df
    ∧ (∀ t : Timestamp, getVal r "tpep_pickup_datetime" = Val.ts t →
        ∃ wd h : Nat,
          getVal (prepRow features ycol r) "pickup_weekday" = Val.num wd
          ∧ getVal (prepRow features ycol r) "pickup_hour" = Val.num h
          ∧ getVal (prepRow features ycol r) "pickup_week_hour" = Val.num (wd * 24 + h)
          ∧ wd * 24 + h ≤ 167)
    ∧ (getVal r "tpep_pickup_datetime" = Val.null →
        getVal (prepRow features ycol r) "pickup_weekday" = Val.num (-1)
        ∧ getVal (prepRow features ycol r) "pickup_hour" = Val.num (-1)
        ∧ getVal (prepRow features ycol r) "pickup_week_hour" = Val.num (-1)) := by
  refine ⟨?_, ?_, ?_⟩
  · rw [prep_df_eq_map]
    exact List.mem_map_of_mem _ hr
  · intro t ht
    refine ⟨weekdayMon0 t.year t.month t.day, t.hour.val, ?_, ?_, ?_, ?_⟩
    · simp [prepRow_eq_finish_derive, getVal_finishRow, deriveRow, getVal_assignRow,
        exprWeekday, vWeekday, ht, astypeFloat, fillna, features]
    · simp [prepRow_eq_finish_derive, getVal_finishRow, deriveRow, getVal_assignRow,
        exprHour, vHour, ht, astypeFloat, fillna, features]
    · simp [prepRow_eq_finish_derive, getVal_finishRow, deriveRow, getVal_assignRow,
        exprWeekHour, exprWeekday, exprHour, vWeekday, vHour, vAdd, vMul, ht,
        astypeFloat, fillna, features]
    · have hwd := weekdayMon0_lt_7 t.year t.month t.day
      have hh := t.hour.isLt
      omega
  · intro ht
    refine ⟨?_, ?_, ?_⟩ <;>
      simp [prepRow_eq_finish_derive, getVal_finishRow, deriveRow, getVal_assignRow,
        exprWeekHour, exprWeekday, exprHour, vWeekday, vHour, vAdd, vMul, ht,
        astypeFloat, fillna, features]

/-- Witness for C2 at the scenario batch: row 1 survives the filter,
its timestamp is present, and the theorem applies. -/
theorem c2_week_hour_identity_witness :
    rawRow1 ∈ filterFarePos batch3
    ∧ getVal rawRow1 "tpep_pickup_datetime" = Val.ts tsTue
    ∧ (prepRow features y_col rawRow1 ∈ prep_df features y_col batch3
       ∧ (∀ t : Timestamp, getVal rawRow1 "tpep_pickup_datetime" = Val.ts t →
           ∃ wd h : Nat,
             getVal (prepRow features y_col rawRow1) "pickup_weekday" = Val.num wd
             ∧ getVal (prepRow features y_col rawRow1) "pickup_hour" = Val.num h
             ∧ getVal (prepRow features y_col rawRow1) "pickup_week_hour" = Val.num (wd * 24 + h)
             ∧ wd * 24 + h ≤ 167)
       ∧ (getVal rawRow1 "tpep_pickup_datetime" = Val.null →
           getVal (prepRow features y_col rawRow1) "pickup_weekday" = Val.num (-1)
           ∧ getVal (prepRow features y_col rawRow1) "pickup_hour" = Val.num (-1)
           ∧ getVal (prepRow features y_col rawRow1) "pickup_week_hour" = Val.num (-1))) :=
  ⟨by decide, by decide, c2_week_hour_identity y_col batch3 rawRow1 (by decide)⟩

/-- C2 counterexample: a surviving row with a missing pickup timestamp is
kept and sentinel-filled: its pickup_weekday, pickup_hour and
pickup_week_hour all equal -1 in the output, so pickup_week_hour is
neither equal to pickup_weekday * 24 + pickup_hour (that is -25) nor
within [0, 167]. -/
theorem c2_missing_timestamp_counterexample :
    (prep_df features y_col [rawNoTs]).map (fun r => getVal r "pickup_weekday")
        = [Val.num (-1)]
    ∧ (prep_df features y_col [rawNoTs]).map (fun r => getVal r "pickup_hour")
        = [Val.num (-1)]
    ∧ (prep_df features y_col [rawNoTs]).map (fun r => getVal r "pickup_week_hour")
        = [Val.num (-1)]
    ∧ ¬((-1 : Rat) = (-1) * 24 + (-1))
    ∧ ¬((0 : Rat) ≤ -1) := by
  refine ⟨by decide, by decide, by decide, by norm_num, by norm_num⟩

/-- C3: on the 3-row scenario batch, the FeatureBuilder keeps exactly the
two positive-fare rows, with tip_fraction 1/5 and 1/4, pickup_weekday 1
(Tuesday) and 0 (Monday), pickup_hour 8 and 23.  Checked on the
tip_fraction-target prep_df variant (whose output carries tip_fraction)
and on the high_tip-target variant (whose intermediate tip_fraction
column carries the same ratios). -/
theorem c3_scenario :
    (prep_df_tf features_tf y_col_tf batch3).length = 2
    ∧ (prep_df_tf features_tf y_col_tf batch3).map (fun r => getVal r "tip_fraction")
        = [Val.num (1 / 5), Val.num (1 / 4)]
    ∧ (prep_df_tf features_tf y_col_tf batch3).map (fun r => getVal r "pickup_weekday")
        = [Val.num 1, Val.num 0]
    ∧ (prep_df_tf features_tf y_col_tf batch3).map (fun r => getVal r "pickup_hour")
        = [Val.num 8, Val.num 23]
    ∧ (prep_df features y_col batch3).length = 2
    ∧ (prep_df features y_col batch3).map (fun r => getVal r "pickup_weekday")
        = [Val.num 1, Val.num 0]
    ∧ (prep_df features y_col batch3).map (fun r => getVal r "pickup_hour")
        = [Val.num 8, Val.num 23]
    ∧ (assign "tip_fraction" exprTipFraction (filterFarePos batch3)).map
        (fun r => getVal r "tip_fraction") = [Val.num (1 / 5), Val.num (1 / 4)] := by
  refine ⟨by decide, ?_, by decide, by decide, by decide, by decide, by decide, ?_⟩ <;>
    (simp +decide only [prep_df_tf, filterFarePos, farePos, asBool, vGtQ, assign,
      setCol, mapVals, selectCols, projectRow, getVal, exprTipFraction, exprWeekday,
      exprWeekOfYear, exprHour, exprWeekHour, exprMinute, vDiv, vWeekday, vHour,
      vMinute, vWeekOfYear, vAdd, vMul, astypeFloat, fillna, batch3, rawRow1,
      rawRow2, rawRow3, features_tf, y_col_tf, List.map, List.filter];
     norm_num)

theorem notTs_vDiv (a b : Val) : notTs (vDiv a b) = true := by
  cases a <;> cases b <;> rfl

theorem notTs_vGtQ (v : Val) (c : Rat) : notTs (vGtQ v c) = true := by
  cases v <;> rfl

theorem notTs_vAdd (a b : Val) : notTs (vAdd a b) = true := by
  cases a <;> cases b <;> rfl

theorem notTs_vWeekday (v : Val) : notTs (vWeekday v) = true := by
  cases v <;> rfl

theorem notTs_vHour (v : Val) : notTs (vHour v) = true := by
  cases v <;> rfl

theorem notTs_vMinute (v : Val) : notTs (vMinute v) = true := by
  cases v <;> rfl

theorem deriveRow_weekday (r : Row) :
    getVal (deriveRow r) "pickup_weekday" = vWeekday (getVal r "tpep_pickup_datetime") := by
  simp +decide [deriveRow, getVal_assignRow, exprWeekday]

theorem deriveRow_hour (r : Row) :
    getVal (deriveRow r) "pickup_hour" = vHour (getVal r "tpep_pickup_datetime") := by
  simp +decide [deriveRow, getVal_assignRow, exprHour]

theorem deriveRow_week_hour (r : Row) :
    getVal (deriveRow r) "pickup_week_hour" =
      vAdd (vMul (vWeekday (getVal r "tpep_pickup_datetime")) (Val.num 24))
        (vHour (getVal r "tpep_pickup_datetime")) := by
  simp +decide [deriveRow, getVal_assignRow, exprWeekHour, exprWeekday, exprHour]

theorem deriveRow_minute (r : Row) :
    getVal (deriveRow r) "pickup_minute" = vMinute (getVal r "tpep_pickup_datetime") := by
  simp +decide [deriveRow, getVal_assignRow, exprMinute]

theorem deriveRow_tip_fraction (r : Row) :
    getVal (deriveRow r) "tip_fraction" =
      vDiv (getVal r "tip_amount") (getVal r "fare_amount") := by
  simp +decide [deriveRow, getVal_assignRow, exprTipFraction]

theorem deriveRow_high_tip (r : Row) :
    getVal (deriveRow r) "high_tip" =
      vGtQ (vDiv (getVal r "tip_amount") (getVal r "fare_amount")) (1 / 5) := by
  simp +decide [deriveRow, getVal_assignRow, exprHighTip, exprTipFraction]

theorem deriveRow_passenger_count (r : Row) :
    getVal (deriveRow r) "passenger_count" = getVal r "passenger_count" := by
  simp +decide [deriveRow, getVal_assignRow]

theorem deriveRow_PULocationID (r : Row) :
    getVal (deriveRow r) "PULocationID" = getVal r "PULocationID" := by
  simp +decide [deriveRow, getVal_assignRow]

theorem deriveRow_DOLocationID (r : Row) :
    getVal (deriveRow r) "DOLocationID" = getVal r "DOLocationID" := by
  simp +decide [deriveRow, getVal_assignRow]

theorem deriveRowCudf_high_tip (r : Row) :
    getVal (deriveRowCudf r) "high_tip" =
      vGtQcudf (vDiv (getVal r "tip_amount") (getVal r "fare_amount")) (1 / 5) := by
  simp +decide [deriveRowCudf, getVal_assignRow, exprHighTipCudf, exprTipFraction]

theorem deriveRowTf_tip_fraction (r : Row) :
    getVal (deriveRowTf r) "tip_fraction" =
      vDiv (getVal r "tip_amount") (getVal r "fare_amount") := by
  simp +decide [deriveRowTf, getVal_assignRow, exprTipFraction]

/-- C4: after the fare filter no step of prep_df adds or removes rows;
every feature and target cell of the output is a number (the astype /
fillna pair leaves no null and no uncoerced value); a derived cell that is
missing (null) comes out as exactly the sentinel -1; and a derived cell
that is a number passes through unchanged (only genuinely-missing values
get the sentinel). -/
theorem c4_numeric_sentinel (df : Frame) (hwf : ∀ r ∈ df, wfRaw r = true) :
    (prep_df features y_col df).length = (filterFarePos df).length
    ∧ (∀ o ∈ prep_df features y_col df, ∀ c ∈ features ++ [y_col],
        ∃ q : Rat, getVal o c = Val.num q)
    ∧ (∀ r ∈ filterFarePos df, ∀ c ∈ features ++ [y_col],
        getVal (deriveRow r) c = Val.null →
          getVal (prepRow features y_col r) c = Val.num (-1))
    ∧ (∀ r ∈ filterFarePos df, ∀ c ∈ features ++ [y_col], ∀ q : Rat,
        getVal (deriveRow r) c = Val.num q →
          getVal (prepRow features y_col r) c = Val.num q) := by
  refine ⟨?_, ?_, ?_, ?_⟩
  · rw [prep_df_eq_map]; exact List.length_map _ _
  · intro o ho c hc
    rw [prep_df_eq_map] at ho
    obtain ⟨r, hrf, rfl⟩ := List.mem_map.mp ho
    have hw := hwf r (List.mem_of_mem_filter hrf)
    simp only [wfRaw, Bool.and_eq_true] at hw
    rw [prepRow_eq_finish_derive, getVal_finishRow, if_pos hc]
    apply fillna_astypeFloat_num
    simp only [features, y_col, List.mem_append, List.mem_cons,
      List.not_mem_nil, or_false] at hc
    rcases hc with (rfl | rfl | rfl | rfl | rfl | rfl | rfl) | rfl
    · rw [deriveRow_weekday]; exact notTs_vWeekday _
    · rw [deriveRow_hour]; exact notTs_vHour _
    · rw [deriveRow_week_hour]; exact notTs_vAdd _ _
    · rw [deriveRow_minute]; exact notTs_vMinute _
    · rw [deriveRow_passenger_count]; exact hw.1.1
    · rw [deriveRow_PULocationID]; exact hw.1.2
    · rw [deriveRow_DOLocationID]; exact hw.2
    · rw [deriveRow_high_tip]; exact notTs_vGtQ _ _
  · intro r _ c hc hnull
    rw [prepRow_eq_finish_derive, getVal_finishRow, if_pos hc, hnull]
    rfl
  · intro r _ c hc q hq
    rw [prepRow_eq_finish_derive, getVal_finishRow, if_pos hc, hq]
    rfl

/-- Witness for C4 at the scenario batch (whose rows satisfy the raw
column contract). -/
theorem c4_numeric_sentinel_witness :
    (∀ r ∈ batch3, wfRaw r = true)
    ∧ ((prep_df features y_col batch3).length = (filterFarePos batch3).length
       ∧ (∀ o ∈ prep_df features y_col batch3, ∀ c ∈ features ++ [y_col],
           ∃ q : Rat, getVal o c = Val.num q)
       ∧ (∀ r ∈ filterFarePos batch3, ∀ c ∈ features ++ [y_col],
           getVal (deriveRow r) c = Val.null →
             getVal (prepRow features y_col r) c = Val.num (-1))
       ∧ (∀ r ∈ filterFarePos batch3, ∀ c ∈ features ++ [y_col], ∀ q : Rat,
           getVal (deriveRow r) c = Val.num q →
             getVal (prepRow features y_col r) c = Val.num q)) :=
  ⟨by decide, c4_numeric_sentinel batch3 (by decide)⟩

/-- C5: the output of prep_df has exactly the configured feature columns
plus the target column, in that order, on every row, and its row count is
the row count left by the fare filter (no later step adds or removes
rows). -/
theorem c5_schema_and_rowcount (feats : List String) (ycol : String) (df : Frame) :
    (prep_df feats ycol df).length = (filterFarePos df).length
    ∧ ∀ o ∈ prep_df feats ycol df, o.map Prod.fst = feats ++ [ycol] := by
  refine ⟨by rw [prep_df_eq_map]; exact List.length_map _ _, ?_⟩
  intro o ho
  rw [prep_df_eq_map] at ho
  obtain ⟨r, hrf, rfl⟩ := List.mem_map.mp ho
  rw [prepRow_eq_finish_derive]
  exact keys_finishRow _ _

/-- Witness for C5 at the scenario batch: the output row produced from
scenario row 1 is in the output and carries exactly the configured
columns. -/
theorem c5_schema_and_rowcount_witness :
    prepRow features y_col rawRow1 ∈ prep_df features y_col batch3
    ∧ ((prep_df features y_col batch3).length = (filterFarePos batch3).length
       ∧ (prepRow features y_col rawRow1).map Prod.fst = features ++ [y_col]) :=
  ⟨by rw [prep_df_eq_map]; exact List.mem_map_of_mem _ (by decide),
   ⟨(c5_schema_and_rowcount features y_col batch3).1,
    (c5_schema_and_rowcount features y_col batch3).2 _
      (by rw [prep_df_eq_map]; exact List.mem_map_of_mem _ (by decide))⟩⟩

/-- C6: Trainer.fit on a zero-row feature batch fails with
EmptyTrainingSetError, and the estimator is never consulted: the result is
the same whatever fitting function the factory supplies. -/
theorem c6_empty_training_set (feats : List String) (ycol : String) (batch : Frame)
    (hb : batch.length = 0)
    (est1 est2 : Frame → List Val → Except String (List Rat)) :
    Trainer.fit feats ycol batch est1 = Except.error TrainError.emptyTrainingSet
    ∧ Trainer.fit feats ycol batch est1 = Trainer.fit feats ycol batch est2 := by
  constructor <;> simp [Trainer.fit, hb]

/-- Witness for C6: the empty batch with two estimators that would behave
differently if consulted. -/
theorem c6_empty_training_set_witness :
    ([] : Frame).length = 0
    ∧ (Trainer.fit features y_col [] (fun _ _ => Except.ok [])
          = Except.error TrainError.emptyTrainingSet
       ∧ Trainer.fit features y_col [] (fun _ _ => Except.ok [])
          = Trainer.fit features y_col [] (fun _ _ => Except.error "boom")) :=
  ⟨rfl, c6_empty_training_set features y_col [] rfl
    (fun _ _ => Except.ok []) (fun _ _ => Except.error "boom")⟩

/-- C7: loading after saving at the same location returns an artifact
equal to the one saved, so its predictions on any fixed input batch are
identical to the original's. -/
theorem c7_save_load_round_trip (st : Store) (loc : String) (a : ModelArtifact)
    (df : Frame) :
    ∃ a2 : ModelArtifact,
      ModelPersistence.load (ModelPersistence.save st loc a) loc = Except.ok a2
      ∧ a2.predict df = a.predict df ∧ a2 = a := by
  refine ⟨a, ?_, rfl, rfl⟩
  simp [ModelPersistence.load, ModelPersistence.save, decode_encode]

/-- C8 (amended): the notebooks save the model by opening the destination
path for writing and dumping into it.  A save that runs to completion
leaves the fully written artifact retrievable at the location; but the
write is direct — there is no temporary file and no rename — so the
operation is not atomic (see the counterexample theorem: interrupting
after the open leaves the destination truncated). -/
theorem c8_completed_save (st : Store) (loc : String) (a : ModelArtifact) :
    runOps (saveOps loc a) st loc = some (encodeArtifact a) := by
  simp [runOps, saveOps, applyOp]

/-- A concrete artifact for the persistence counterexample. -/
def artifact0 : ModelArtifact := ⟨["pickup_weekday"], "high_tip", [1]⟩

/-- A concrete store with existing content at the model path. -/
def store0 : Store :=
  fun l => if l = "models/random_forest_scikit.pkl" then some [Tok.tnat 7] else none

/-- C8 counterexample: the direct-write save is not atomic.  Interrupting
it after its first operation (the open('wb') truncation) leaves the
destination holding an empty file — neither its old content nor the fully
written artifact. -/
theorem c8_not_atomic_counterexample :
    runOps ((saveOps "models/random_forest_scikit.pkl" artifact0).take 1) store0
        "models/random_forest_scikit.pkl" = some []
    ∧ store0 "models/random_forest_scikit.pkl" = some [Tok.tnat 7]
    ∧ (some ([] : List Tok) ≠ some (encodeArtifact artifact0))
    ∧ ¬ AtomicAt (saveOps "models/random_forest_scikit.pkl" artifact0)
        "models/random_forest_scikit.pkl" (encodeArtifact artifact0) := by
  refine ⟨by decide, by decide, by decide, ?_⟩
  intro h
  have h1 := h store0 1
  revert h1
  decide

/-- C9: the prep_df body, run statement by statement on a heap of
dataframe objects, never mutates the input object: the boolean-mask
filter copies before any column assignment, every assignment hits the
copy, and the returned object is a fresh one whose value is exactly the
pure prep_df of the input value.  Two invocations on the same input value
therefore return equal values (the output is a function of the input
value alone), and the input batch is left unchanged. -/
theorem c9_input_not_mutated (h : Heap) (inp : Nat) (df0 : Frame)
    (hin : hLookup h inp = some df0) :
    hLookup (prep_df_prog h inp).1 inp = some df0
    ∧ (prep_df_prog h inp).2 = some (hFresh h + 1)
    ∧ hLookup (prep_df_prog h inp).1 (hFresh h + 1)
        = some (prep_df features y_col df0) := by
  have hlt := hLookup_lt_hFresh h inp df0 hin
  have h1 : inp ≠ hFresh h := by omega
  have h2 : inp ≠ hFresh h + 1 := by omega
  refine ⟨?_, ?_, ?_⟩ <;>
    simp [prep_df_prog, hin, hMutate, hSet, hLookup, h1, h2, prep_df]

/-- A concrete heap holding the scenario batch at object 5. -/
def heap0 : Heap := [(5, batch3)]

/-- Witness for C9 at the scenario batch in a concrete heap. -/
theorem c9_input_not_mutated_witness :
    hLookup heap0 5 = some batch3
    ∧ (hLookup (prep_df_prog heap0 5).1 5 = some batch3
       ∧ (prep_df_prog heap0 5).2 = some (hFresh heap0 + 1)
       ∧ hLookup (prep_df_prog heap0 5).1 (hFresh heap0 + 1)
           = some (prep_df features y_col batch3)) :=
  ⟨by decide, c9_input_not_mutated heap0 5 batch3 (by decide)⟩

/-- C10 counterexample: a surviving pandas row with a missing tip_amount
is kept, but its high_tip target comes out 0, not the sentinel -1: the
NaN tip_fraction collapses to False at the threshold comparison before
fillna runs. -/
theorem c10_missing_tip_counterexample :
    getVal rawNoTip "tip_amount" = Val.null
    ∧ farePos rawNoTip = true
    ∧ (prep_df features y_col [rawNoTip]).length = 1
    ∧ (prep_df features y_col [rawNoTip]).map (fun r => getVal r "high_tip")
        = [Val.num 0]
    ∧ Val.num 0 ≠ Val.num (-1) := by decide

/-- C10 (amended): a surviving row with a missing tip_amount is kept by
every variant and its target is never null in the output; but only where
the null propagates into the projected target does the sentinel fill see
it: the pandas high_tip variant outputs target 0 (NaN > 0.2 is False
before fillna), while the cudf high_tip variant (null-propagating
comparison) and the tip_fraction-target variants output the sentinel
-1. -/
theorem c10_missing_tip_target (df : Frame) (r : Row) (hr : r ∈ filterFarePos df)
    (htip : getVal r "tip_amount" = Val.null) :
    prepRow features y_col r ∈ prep_df features y_col df
    ∧ getVal (prepRow features y_col r) "high_tip" = Val.num 0
    ∧ getVal (prepRowCudf features y_col r) "high_tip" = Val.num (-1)
    ∧ getVal (prepRowTf features_tf y_col_tf r) "tip_fraction" = Val.num (-1)
    ∧ prepRowCudf features y_col r ∈ prep_df_cudf features y_col df
    ∧ prepRowTf features_tf y_col_tf r ∈ prep_df_tf features_tf y_col_tf df := by
  refine ⟨?_, ?_, ?_, ?_, ?_, ?_⟩
  · rw [prep_df_eq_map]; exact List.mem_map_of_mem _ hr
  · rw [prepRow_eq_finish_derive, getVal_finishRow, if_pos (by decide),
      deriveRow_high_tip, htip, vDiv_null_left, vGtQ_null]
    rfl
  · simp only [y_col]
    rw [prepRowCudf_eq, getVal_assignRow, if_pos (by rfl), getVal_finishRow,
      if_pos (by decide), deriveRowCudf_high_tip, htip, vDiv_null_left, vGtQcudf_null]
    norm_num [astypeInt32, astypeFloat, fillna]
  · rw [prepRowTf_eq, getVal_finishRow, if_pos (by decide),
      deriveRowTf_tip_fraction, htip, vDiv_null_left]
    rfl
  · rw [prep_df_cudf_eq_map]; exact List.mem_map_of_mem _ hr
  · rw [prep_df_tf_eq_map]; exact List.mem_map_of_mem _ hr

/-- Witness for C10 at the concrete missing-tip row. -/
theorem c10_missing_tip_target_witness :
    rawNoTip ∈ filterFarePos [rawNoTip]
    ∧ getVal rawNoTip "tip_amount" = Val.null
    ∧ (prepRow features y_col rawNoTip ∈ prep_df features y_col [rawNoTip]
       ∧ getVal (prepRow features y_col rawNoTip) "high_tip" = Val.num 0
       ∧ getVal (prepRowCudf features y_col rawNoTip) "high_tip" = Val.num (-1)
       ∧ getVal (prepRowTf features_tf y_col_tf rawNoTip) "tip_fraction" = Val.num (-1)
       ∧ prepRowCudf features y_col rawNoTip ∈ prep_df_cudf features y_col [rawNoTip]
       ∧ prepRowTf features_tf y_col_tf rawNoTip ∈ prep_df_tf features_tf y_col_tf [rawNoTip]) :=
  ⟨by decide, by decide,
   c10_missing_tip_target [rawNoTip] rawNoTip (by decide) (by decide)⟩
